import Mathlib

/-!
Verification of the ISA-backend numeric core: the ISA troposphere model
(`app/routers/isa.py` and the inline copy in `app/main.py`), the Mach
calculator (`app/routers/mach.py`), the lift/drag calculator
(`app/routers/lift_drag.py`) and the fuel-and-range estimator
(`app/routers/fuel_range.py`), embedded shallowly over the real numbers.
Python float arithmetic is modelled as exact real arithmetic; Python
`ZeroDivisionError` and `HTTPException` control flow is modelled with
`Except`.
-/

namespace ISA

/-- ISA constants from `app/routers/isa.py` lines 21-27. -/
def T0 : ℝ := 288.15

def P0 : ℝ := 101325.0

def rho0 : ℝ := 1.225

def L : ℝ := -0.0065

def g0 : ℝ := 9.80665

def R : ℝ := 287.05287

def gamma : ℝ := 1.4

/-- The tuple `(T, P, rho, a)` returned by `isa_tropo`. -/
structure AtmoState where
  T : ℝ
  P : ℝ
  rho : ℝ
  a : ℝ

/-- `isa_tropo` from `app/routers/isa.py` lines 30-44: clamp altitude to
[0, 11000], then temperature by the lapse rate, pressure by the barometric
formula for a non-isothermal layer, density by the ideal-gas law, and the
speed of sound. -/
noncomputable def isa_tropo (altitude_m : ℝ) : AtmoState :=
  let h := max 0 (min 11000 altitude_m)
  let T := T0 + L * h
  let exponent := -g0 / (L * R)
  let P := P0 * (T / T0) ^ exponent
  let rho := P / (R * T)
  let a := Real.sqrt (gamma * R * T)
  ⟨T, P, rho, a⟩

/-- The barometric exponent `-g0 / (L * R)`. -/
noncomputable def kappa : ℝ := -g0 / (L * R)

end ISA

namespace MainISA

/-- `isa_endpoint` from `app/main.py` lines 33-53: the same barometric
formulas with local constants (gas constant literal 287.058) and NO clamp
on the altitude. -/
noncomputable def isa_endpoint (altitude_m : ℝ) : ISA.AtmoState :=
  let T : ℝ := 288.15 + (-0.0065) * altitude_m
  let expo : ℝ := -9.80665 / ((-0.0065) * 287.058)
  let p : ℝ := 101325.0 * (T / 288.15) ^ expo
  let rho : ℝ := p / (287.058 * T)
  let a : ℝ := Real.sqrt (1.4 * 287.058 * T)
  ⟨T, p, rho, a⟩

end MainISA

namespace Mach

/-- The `SpeedUnit` literal type of `app/routers/mach.py`. -/
inductive SpeedUnit where
  | ms
  | fts
  | knots
deriving DecidableEq

/-- Speed conversion of `app/routers/mach.py` lines 60-65 (`ft/s` divides
by 3.28084 on this path). -/
noncomputable def convert_speed (v : ℝ) : SpeedUnit → ℝ
  | .ms => v
  | .fts => v / 3.28084
  | .knots => v * 0.514444

/-- Flow-regime classification of `app/routers/mach.py` lines 72-81. -/
noncomputable def classify (mach : ℝ) : String :=
  if mach < 0.3 then "Incompressible"
  else if mach < 0.8 then "Subsonic"
  else if mach < 1.2 then "Transonic"
  else if mach < 5.0 then "Supersonic"
  else "Hypersonic"

/-- The response model of `app/routers/mach.py`. -/
structure MachResponse where
  altitude_m : ℝ
  speed_input : ℝ
  speed_unit : SpeedUnit
  speed_m_s : ℝ
  mach : ℝ
  speed_of_sound_m_s : ℝ
  temperature_K : ℝ
  flow_regime : String

/-- Errors raised by `compute_mach` (HTTP 400/500 exceptions). -/
inductive MachErr where
  | altitudeTooHigh
  | altitudeNegative
  | invalidSpeedOfSound
deriving DecidableEq

/-- The pydantic validator on `MachRequest.speed_value` (lines 19-24):
speed must be positive or the request never reaches `compute_mach`. -/
def speedValid (speed_value : ℝ) : Prop := 0 < speed_value

/-- `compute_mach` from `app/routers/mach.py` lines 39-92: reject
altitudes above 11000 or below 0, fetch ISA properties, defensively check
the speed of sound, convert the speed, form the Mach number and classify. -/
noncomputable def compute_mach (altitude_m speed_value : ℝ)
    (speed_unit : SpeedUnit) : Except MachErr MachResponse :=
  if altitude_m > 11000 then .error .altitudeTooHigh
  else if altitude_m < 0 then .error .altitudeNegative
  else
    let s := ISA.isa_tropo altitude_m
    if s.a ≤ 0 then .error .invalidSpeedOfSound
    else
      let V_ms := convert_speed speed_value speed_unit
      let mach := V_ms / s.a
      .ok ⟨altitude_m, speed_value, speed_unit, V_ms, mach, s.a, s.T,
        classify mach⟩

end Mach

namespace LiftDrag

/-- Unit literal types of `app/routers/lift_drag.py` lines 11-14. -/
inductive AltUnit where
  | meters
  | feet
  | kilometers
deriving DecidableEq

inductive SpeedUnit where
  | ms
  | kt
  | fts
deriving DecidableEq

inductive AreaUnit where
  | m2
  | ft2
deriving DecidableEq

inductive WeightUnit where
  | newton
  | lbf
deriving DecidableEq

/-- The request model of `app/routers/lift_drag.py` lines 17-27; the two
weight fields are independently optional. -/
structure LiftDragRequest where
  altitude_value : ℝ
  altitude_unit : AltUnit
  speed_value : ℝ
  speed_unit : SpeedUnit
  wing_area_value : ℝ
  wing_area_unit : AreaUnit
  cl : ℝ
  cd : ℝ
  weight_value : Option ℝ
  weight_unit : Option WeightUnit

/-- The pydantic validator on speed and wing area (lines 29-34). -/
def requestValid (req : LiftDragRequest) : Prop :=
  0 < req.speed_value ∧ 0 < req.wing_area_value

/-- `_to_meters`, lines 54-60. -/
noncomputable def to_meters (altitude_value : ℝ) : AltUnit → ℝ
  | .meters => altitude_value
  | .feet => altitude_value * 0.3048
  | .kilometers => altitude_value * 1000.0

/-- `_to_m_s`, lines 63-69 (`ft/s` multiplies by 0.3048 on this path). -/
noncomputable def to_m_s (speed : ℝ) : SpeedUnit → ℝ
  | .ms => speed
  | .fts => speed * 0.3048
  | .kt => speed * 0.514444

/-- `_to_m2`, lines 72-76. -/
noncomputable def to_m2 (area : ℝ) : AreaUnit → ℝ
  | .m2 => area
  | .ft2 => area * 0.092903

/-- `_to_newtons`, lines 79-83. -/
noncomputable def to_newtons (weight : ℝ) : WeightUnit → ℝ
  | .newton => weight
  | .lbf => weight * 4.4482216153

/-- The response model of `app/routers/lift_drag.py` lines 37-51. -/
structure LiftDragResponse where
  altitude_m : ℝ
  rho_kg_m3 : ℝ
  temperature_K : ℝ
  speed_m_s : ℝ
  q_Pa : ℝ
  lift_N : ℝ
  drag_N : ℝ
  ld_ratio : ℝ
  wing_area_m2 : ℝ
  cl : ℝ
  cd : ℝ
  weight_N : Option ℝ
  load_factor : Option ℝ
  lift_excess_N : Option ℝ

/-- Errors raised by `compute_lift_drag` (HTTP 400/500 exceptions). -/
inductive LiftDragErr where
  | altitudeNegative
  | invalidDensity
deriving DecidableEq

/-- `compute_lift_drag` from `app/routers/lift_drag.py` lines 87-141:
convert altitude, reject negatives, clamp, fetch ISA state, defensively
check density, convert speed and area, form q, lift, drag, the guarded
ld ratio, and the weight-gated optional fields.  `weight_N` is filled
whenever both weight fields are supplied; `load_factor` and
`lift_excess_N` additionally require the converted weight to be
positive. -/
noncomputable def compute_lift_drag (req : LiftDragRequest) :
    Except LiftDragErr LiftDragResponse :=
  let alt_m := to_meters req.altitude_value req.altitude_unit
  if alt_m < 0 then .error .altitudeNegative
  else
    let alt_c := max 0 (min 11000 alt_m)
    let s := ISA.isa_tropo alt_c
    if s.rho ≤ 0 then .error .invalidDensity
    else
      let V_ms := to_m_s req.speed_value req.speed_unit
      let S_m2 := to_m2 req.wing_area_value req.wing_area_unit
      let q := 0.5 * s.rho * V_ms ^ 2
      let lift := q * S_m2 * req.cl
      let drag := q * S_m2 * req.cd
      let ld_ratio := if drag > 0 then lift / drag else 0
      match req.weight_value, req.weight_unit with
      | some wv, some wu =>
          let W_N := to_newtons wv wu
          if W_N > 0 then
            .ok ⟨alt_c, s.rho, s.T, V_ms, q, lift, drag, ld_ratio, S_m2,
              req.cl, req.cd, some W_N, some (lift / W_N),
              some (lift - W_N)⟩
          else
            .ok ⟨alt_c, s.rho, s.T, V_ms, q, lift, drag, ld_ratio, S_m2,
              req.cl, req.cd, some W_N, none, none⟩
      | _, _ =>
          .ok ⟨alt_c, s.rho, s.T, V_ms, q, lift, drag, ld_ratio, S_m2,
            req.cl, req.cd, none, none, none⟩

/-- A request carrying a supplied but negative weight: altitude 0 m,
speed 10 m/s, wing area 10 m², cl = cd = 1, weight −5 N. -/
noncomputable def negWeightReq : LiftDragRequest :=
  ⟨0, .meters, 10, .ms, 10, .m2, 1, 1, some (-5), some .newton⟩

/-- The same request with no weight supplied and cd = 0. -/
noncomputable def cdZeroReq : LiftDragRequest :=
  ⟨0, .meters, 10, .ms, 10, .m2, 1, 0, none, none⟩

/-- The response computed for `negWeightReq`: the supplied negative weight
fills `weight_N` with −5 while the two derived optional fields stay
empty. -/
noncomputable def negWeightResp : LiftDragResponse :=
  ⟨0, (ISA.isa_tropo 0).rho, (ISA.isa_tropo 0).T, 10,
    0.5 * (ISA.isa_tropo 0).rho * 10 ^ 2,
    0.5 * (ISA.isa_tropo 0).rho * 10 ^ 2 * 10 * 1,
    0.5 * (ISA.isa_tropo 0).rho * 10 ^ 2 * 10 * 1,
    (0.5 * (ISA.isa_tropo 0).rho * 10 ^ 2 * 10 * 1) /
      (0.5 * (ISA.isa_tropo 0).rho * 10 ^ 2 * 10 * 1),
    10, 1, 1, some (-5), none, none⟩

/-- The response computed for `cdZeroReq`: zero drag and the ld-ratio
fallback value 0. -/
noncomputable def cdZeroResp : LiftDragResponse :=
  ⟨0, (ISA.isa_tropo 0).rho, (ISA.isa_tropo 0).T, 10,
    0.5 * (ISA.isa_tropo 0).rho * 10 ^ 2,
    0.5 * (ISA.isa_tropo 0).rho * 10 ^ 2 * 10 * 1,
    0, 0, 10, 1, 0, none, none, none⟩

end LiftDrag

namespace FuelRange

/-- The request model of `app/routers/fuel_range.py` lines 9-20.
`pax` is an integer; `CD0` and `e` carry no validator. -/
structure FuelRangeRequest where
  V_ms : ℝ
  pax : ℤ
  pax_wt_kg : ℝ
  W_empty_kg : ℝ
  W_fuel_kg : ℝ
  c_per_hr : ℝ
  LD : ℝ
  S_m2 : ℝ
  b_m : ℝ
  CD0 : ℝ
  e : ℝ

/-- The `positive_values` pydantic validator (lines 22-27): exactly the
eight listed fields must be positive; `pax`, `CD0` and `e` are NOT
checked. -/
def requestValid (req : FuelRangeRequest) : Prop :=
  0 < req.V_ms ∧ 0 < req.pax_wt_kg ∧ 0 < req.W_empty_kg ∧
    0 < req.W_fuel_kg ∧ 0 < req.c_per_hr ∧ 0 < req.LD ∧
      0 < req.S_m2 ∧ 0 < req.b_m

/-- The response model of `app/routers/fuel_range.py` lines 30-54. -/
structure FuelRangeResponse where
  Wi_kg : ℝ
  Wf_kg : ℝ
  W_pax_kg : ℝ
  range_m : ℝ
  range_km : ℝ
  range_nm : ℝ
  endurance_hr : ℝ
  fuel_burn_time_sec : ℝ
  fuel_burn_time_min : ℝ
  fuel_burn_time_hr : ℝ
  rho_kg_m3 : ℝ
  q_Pa : ℝ
  CL : ℝ
  AR : ℝ
  k : ℝ
  CD : ℝ
  drag_N : ℝ
  fuel_burn_rate_kg_s : ℝ
  V_ms : ℝ

/-- Outcomes other than a response: the two `HTTPException(400)` raises
and an uncaught Python `ZeroDivisionError` from a float division whose
denominator is exactly zero. -/
inductive FuelRangeErr where
  | invalidWeight
  | invalidBurnRate
  | zeroDivision
deriving DecidableEq

/-- Derived passenger weight, line 72: `W_pax = pax * pax_wt`. -/
def W_pax (req : FuelRangeRequest) : ℝ := (req.pax : ℝ) * req.pax_wt_kg

/-- Derived initial mass, line 73: `Wi = W_empty + W_fuel + W_pax`. -/
def Wi (req : FuelRangeRequest) : ℝ :=
  req.W_empty_kg + req.W_fuel_kg + W_pax req

/-- Derived final mass, line 74: `Wf = Wi - W_fuel`. -/
def Wf (req : FuelRangeRequest) : ℝ := Wi req - req.W_fuel_kg

/-- `estimate_fuel_and_range` from `app/routers/fuel_range.py` lines
58-135.  Python raises `ZeroDivisionError` when a float division has a
zero denominator, so each division with a non-literal denominator is
guarded by an explicit zero test that maps to `FuelRangeErr.zeroDivision`;
under `requestValid` every such denominator except `pi * e * AR` is
provably nonzero. -/
noncomputable def estimate_fuel_and_range (req : FuelRangeRequest) :
    Except FuelRangeErr FuelRangeResponse :=
  if Wf req ≤ 0 ∨ Wi req ≤ Wf req then .error .invalidWeight
  else
    let c_sec := req.c_per_hr / 3600.0
    if c_sec = 0 then .error .zeroDivision
    else if Wf req = 0 then .error .zeroDivision
    else
      let range_m := (req.V_ms / c_sec) * req.LD * Real.log (Wi req / Wf req)
      let range_km := range_m / 1000.0
      let range_nm := range_km * 0.539957
      if req.c_per_hr = 0 then .error .zeroDivision
      else
        let endurance_hr := (1.0 / req.c_per_hr) * req.LD *
          Real.log (Wi req / Wf req)
        let rho : ℝ := 1.225
        let q := 0.5 * rho * req.V_ms ^ 2
        let lift := Wi req * 9.81
        if q * req.S_m2 = 0 then .error .zeroDivision
        else
          let CL := lift / (q * req.S_m2)
          if req.S_m2 = 0 then .error .zeroDivision
          else
            let AR := req.b_m ^ 2 / req.S_m2
            if Real.pi * req.e * AR = 0 then .error .zeroDivision
            else
              let k := 1.0 / (Real.pi * req.e * AR)
              let CD := req.CD0 + k * CL ^ 2
              let D := q * req.S_m2 * CD
              let fuel_burn_rate := c_sec * D
              if fuel_burn_rate ≤ 0 then .error .invalidBurnRate
              else
                let t_sec := req.W_fuel_kg / fuel_burn_rate
                let t_min := t_sec / 60.0
                let t_hr := t_sec / 3600.0
                .ok ⟨Wi req, Wf req, W_pax req, range_m, range_km,
                  range_nm, endurance_hr, t_sec, t_min, t_hr, rho, q, CL,
                  AR, k, CD, D, fuel_burn_rate, req.V_ms⟩

/-- A field-valid request: V = 200 m/s, 100 passengers of 80 kg,
empty mass 5000 kg, fuel 3000 kg, c = 0.5 /hr, L/D = 15, S = 100 m²,
b = 30 m, CD0 = 0.02, e = 0.8. -/
def stdReq : FuelRangeRequest := ⟨200, 100, 80, 5000, 3000, 0.5, 15, 100, 30, 0.02, 0.8⟩

/-- A field-valid request whose fuel mass (10⁹ kg) vastly exceeds every
other mass in the aircraft. -/
def bigFuelReq : FuelRangeRequest := ⟨200, 0, 80, 1000, 1000000000, 0.5, 15, 100, 30, 0.02, 0.8⟩

/-- A field-valid request with a negative passenger count, the only way
the weight-combination guard can fire. -/
def negPaxReq : FuelRangeRequest := ⟨200, -100, 80, 1000, 3000, 0.5, 15, 100, 30, 0.02, 0.8⟩

/-- A field-valid request with Oswald efficiency e = 0. -/
def eZeroReq : FuelRangeRequest := ⟨200, 100, 80, 5000, 3000, 0.5, 15, 100, 30, 0.02, 0⟩

end FuelRange

/-! ## Helper lemmas for the atmosphere model -/

theorem clamp_mem (altitude_m : ℝ) :
    0 ≤ max 0 (min 11000 altitude_m) ∧
      max (0 : ℝ) (min 11000 altitude_m) ≤ 11000 := by
  refine ⟨le_max_left _ _, ?_⟩
  rcases le_total (11000 : ℝ) altitude_m with h | h
  · rw [min_eq_left h]
    simp
  · rw [min_eq_right h]
    rcases le_total (0 : ℝ) altitude_m with h0 | h0
    · rw [max_eq_right h0]
      linarith
    · rw [max_eq_left h0]
      norm_num

theorem clamp_id {h : ℝ} (h0 : 0 ≤ h) (h1 : h ≤ 11000) :
    max 0 (min 11000 h) = h := by
  rw [min_eq_right h1, max_eq_right h0]

theorem isa_tropo_T (altitude_m : ℝ) :
    (ISA.isa_tropo altitude_m).T =
      ISA.T0 + ISA.L * max 0 (min 11000 altitude_m) := rfl

theorem isa_tropo_T_bounds (altitude_m : ℝ) :
    216.65 ≤ (ISA.isa_tropo altitude_m).T ∧
      (ISA.isa_tropo altitude_m).T ≤ 288.15 := by
  obtain ⟨hl, hu⟩ := clamp_mem altitude_m
  rw [isa_tropo_T]
  unfold ISA.T0 ISA.L
  constructor <;> nlinarith

theorem isa_tropo_T_pos (altitude_m : ℝ) : 0 < (ISA.isa_tropo altitude_m).T := by
  have := (isa_tropo_T_bounds altitude_m).1
  linarith

theorem kappa_gt_one : 1 < ISA.kappa := by
  unfold ISA.kappa ISA.g0 ISA.L ISA.R
  norm_num

theorem kappa_pos : 0 < ISA.kappa := lt_trans one_pos kappa_gt_one

theorem isa_tropo_P (altitude_m : ℝ) :
    (ISA.isa_tropo altitude_m).P =
      ISA.P0 * ((ISA.isa_tropo altitude_m).T / ISA.T0) ^ ISA.kappa := rfl

theorem isa_tropo_rho (altitude_m : ℝ) :
    (ISA.isa_tropo altitude_m).rho =
      (ISA.isa_tropo altitude_m).P / (ISA.R * (ISA.isa_tropo altitude_m).T) := rfl

theorem isa_tropo_a (altitude_m : ℝ) :
    (ISA.isa_tropo altitude_m).a =
      Real.sqrt (ISA.gamma * ISA.R * (ISA.isa_tropo altitude_m).T) := rfl

theorem T0_pos : (0 : ℝ) < ISA.T0 := by unfold ISA.T0; norm_num

theorem R_pos : (0 : ℝ) < ISA.R := by unfold ISA.R; norm_num

theorem gamma_pos : (0 : ℝ) < ISA.gamma := by unfold ISA.gamma; norm_num

theorem P0_pos : (0 : ℝ) < ISA.P0 := by unfold ISA.P0; norm_num

theorem isa_tropo_P_pos (altitude_m : ℝ) : 0 < (ISA.isa_tropo altitude_m).P := by
  rw [isa_tropo_P]
  exact mul_pos P0_pos
    (Real.rpow_pos_of_pos (div_pos (isa_tropo_T_pos altitude_m) T0_pos) _)

theorem isa_tropo_rho_pos (altitude_m : ℝ) : 0 < (ISA.isa_tropo altitude_m).rho := by
  rw [isa_tropo_rho]
  exact div_pos (isa_tropo_P_pos altitude_m)
    (mul_pos R_pos (isa_tropo_T_pos altitude_m))

theorem isa_tropo_a_pos (altitude_m : ℝ) : 0 < (ISA.isa_tropo altitude_m).a := by
  rw [isa_tropo_a]
  exact Real.sqrt_pos.mpr
    (mul_pos (mul_pos gamma_pos R_pos) (isa_tropo_T_pos altitude_m))

theorem isa_tropo_rho_power (altitude_m : ℝ) :
    (ISA.isa_tropo altitude_m).rho =
      ISA.P0 / (ISA.R * ISA.T0) *
        ((ISA.isa_tropo altitude_m).T / ISA.T0) ^ (ISA.kappa - 1) := by
  have hT := isa_tropo_T_pos altitude_m
  have hTr : (0 : ℝ) < (ISA.isa_tropo altitude_m).T / ISA.T0 := div_pos hT T0_pos
  rw [isa_tropo_rho, isa_tropo_P]
  have hsplit : ((ISA.isa_tropo altitude_m).T / ISA.T0) ^ ISA.kappa =
      ((ISA.isa_tropo altitude_m).T / ISA.T0) ^ (ISA.kappa - 1) *
        ((ISA.isa_tropo altitude_m).T / ISA.T0) := by
    have := Real.rpow_add hTr (ISA.kappa - 1) 1
    rw [sub_add_cancel] at this
    rw [this, Real.rpow_one]
  rw [hsplit]
  have hTne : (ISA.isa_tropo altitude_m).T ≠ 0 := ne_of_gt hT
  have hT0ne : ISA.T0 ≠ 0 := ne_of_gt T0_pos
  have hRne : ISA.R ≠ 0 := ne_of_gt R_pos
  field_simp
  ring

theorem isa_endpoint_T (altitude_m : ℝ) :
    (MainISA.isa_endpoint altitude_m).T = 288.15 + (-0.0065) * altitude_m := rfl

/-- `isa_tropo` depends on its input only through the clamped altitude. -/
theorem isa_tropo_congr {x y : ℝ}
    (hc : max 0 (min 11000 x) = max 0 (min 11000 y)) :
    ISA.isa_tropo x = ISA.isa_tropo y := by
  unfold ISA.isa_tropo
  rw [hc]

/-! ## Monotonicity helpers -/

theorem isa_tropo_T_strictAnti {h1 h2 : ℝ} (h10 : 0 ≤ h1) (h12 : h1 < h2)
    (h2u : h2 ≤ 11000) : (ISA.isa_tropo h2).T < (ISA.isa_tropo h1).T := by
  rw [isa_tropo_T, isa_tropo_T,
    clamp_id h10 (le_of_lt (lt_of_lt_of_le h12 h2u)),
    clamp_id (le_of_lt (lt_of_le_of_lt h10 h12)) h2u]
  unfold ISA.T0 ISA.L
  linarith

theorem isa_tropo_P_strictAnti {h1 h2 : ℝ} (h10 : 0 ≤ h1) (h12 : h1 < h2)
    (h2u : h2 ≤ 11000) : (ISA.isa_tropo h2).P < (ISA.isa_tropo h1).P := by
  rw [isa_tropo_P, isa_tropo_P]
  have hT2 := isa_tropo_T_pos h2
  have hTlt := isa_tropo_T_strictAnti h10 h12 h2u
  have hdiv : (ISA.isa_tropo h2).T / ISA.T0 < (ISA.isa_tropo h1).T / ISA.T0 :=
    div_lt_div_of_pos_right hTlt T0_pos
  exact mul_lt_mul_of_pos_left
    (Real.rpow_lt_rpow (le_of_lt (div_pos hT2 T0_pos)) hdiv kappa_pos) P0_pos

theorem isa_tropo_rho_strictAnti {h1 h2 : ℝ} (h10 : 0 ≤ h1) (h12 : h1 < h2)
    (h2u : h2 ≤ 11000) : (ISA.isa_tropo h2).rho < (ISA.isa_tropo h1).rho := by
  rw [isa_tropo_rho_power, isa_tropo_rho_power]
  have hT2 := isa_tropo_T_pos h2
  have hTlt := isa_tropo_T_strictAnti h10 h12 h2u
  have hdiv : (ISA.isa_tropo h2).T / ISA.T0 < (ISA.isa_tropo h1).T / ISA.T0 :=
    div_lt_div_of_pos_right hTlt T0_pos
  have hC : (0 : ℝ) < ISA.P0 / (ISA.R * ISA.T0) :=
    div_pos P0_pos (mul_pos R_pos T0_pos)
  have hexp : (0 : ℝ) < ISA.kappa - 1 := by linarith [kappa_gt_one]
  exact mul_lt_mul_of_pos_left
    (Real.rpow_lt_rpow (le_of_lt (div_pos hT2 T0_pos)) hdiv hexp) hC

theorem isa_tropo_a_strictAnti {h1 h2 : ℝ} (h10 : 0 ≤ h1) (h12 : h1 < h2)
    (h2u : h2 ≤ 11000) : (ISA.isa_tropo h2).a < (ISA.isa_tropo h1).a := by
  rw [isa_tropo_a, isa_tropo_a]
  have hT2 := isa_tropo_T_pos h2
  have hTlt := isa_tropo_T_strictAnti h10 h12 h2u
  have hgR : (0 : ℝ) < ISA.gamma * ISA.R := mul_pos gamma_pos R_pos
  exact Real.sqrt_lt_sqrt (le_of_lt (mul_pos hgR hT2))
    (mul_lt_mul_of_pos_left hTlt hgR)

/-! ## Claims about the atmosphere model -/

/-- C7: for every altitude h in [0, 11000], `isa_tropo h` returns
temperature, pressure, density and speed of sound all strictly positive,
with density equal to `P / (R * T)` exactly; the function is total on the
clamped domain and never divides by zero. -/
theorem C7_atmosphere_positive (h : ℝ) (_h0 : 0 ≤ h) (_h1 : h ≤ 11000) :
    0 < (ISA.isa_tropo h).T ∧ 0 < (ISA.isa_tropo h).P ∧
      0 < (ISA.isa_tropo h).rho ∧ 0 < (ISA.isa_tropo h).a ∧
        (ISA.isa_tropo h).rho =
          (ISA.isa_tropo h).P / (ISA.R * (ISA.isa_tropo h).T) :=
  ⟨isa_tropo_T_pos h, isa_tropo_P_pos h, isa_tropo_rho_pos h,
    isa_tropo_a_pos h, isa_tropo_rho h⟩

/-- Witness for C7 at h = 5000 m. -/
theorem C7_atmosphere_positive_witness :
    0 < (ISA.isa_tropo 5000).T ∧ 0 < (ISA.isa_tropo 5000).P ∧
      0 < (ISA.isa_tropo 5000).rho ∧ 0 < (ISA.isa_tropo 5000).a ∧
        (ISA.isa_tropo 5000).rho =
          (ISA.isa_tropo 5000).P / (ISA.R * (ISA.isa_tropo 5000).T) :=
  C7_atmosphere_positive 5000 (by norm_num) (by norm_num)

/-- C8: all four quantities returned by `isa_tropo` are strictly
decreasing in altitude over [0, 11000]. -/
theorem C8_atmosphere_strictAnti (h1 h2 : ℝ) (h10 : 0 ≤ h1) (h12 : h1 < h2)
    (h2u : h2 ≤ 11000) :
    (ISA.isa_tropo h2).T < (ISA.isa_tropo h1).T ∧
      (ISA.isa_tropo h2).P < (ISA.isa_tropo h1).P ∧
        (ISA.isa_tropo h2).rho < (ISA.isa_tropo h1).rho ∧
          (ISA.isa_tropo h2).a < (ISA.isa_tropo h1).a :=
  ⟨isa_tropo_T_strictAnti h10 h12 h2u, isa_tropo_P_strictAnti h10 h12 h2u,
    isa_tropo_rho_strictAnti h10 h12 h2u, isa_tropo_a_strictAnti h10 h12 h2u⟩

/-- Witness for C8 at h1 = 0, h2 = 11000. -/
theorem C8_atmosphere_strictAnti_witness :
    (ISA.isa_tropo 11000).T < (ISA.isa_tropo 0).T ∧
      (ISA.isa_tropo 11000).P < (ISA.isa_tropo 0).P ∧
        (ISA.isa_tropo 11000).rho < (ISA.isa_tropo 0).rho ∧
          (ISA.isa_tropo 11000).a < (ISA.isa_tropo 0).a :=
  C8_atmosphere_strictAnti 0 11000 (by norm_num) (by norm_num) (by norm_num)

/-! ## Clamping (C2) -/

theorem clamp_neg500 : max (0 : ℝ) (min 11000 (-500)) = max 0 (min 11000 0) := by
  rw [min_eq_right (by norm_num : (-500 : ℝ) ≤ 11000),
    min_eq_right (by norm_num : (0 : ℝ) ≤ 11000),
    max_eq_left (by norm_num : (-500 : ℝ) ≤ 0), max_eq_right le_rfl]

theorem clamp_20000 : max (0 : ℝ) (min 11000 20000) = max 0 (min 11000 11000) := by
  rw [min_eq_left (by norm_num : (11000 : ℝ) ≤ 20000), min_self]

/-- C2 counterexample: on the `/api/isa` call path of `app/main.py`, the
atmosphere computation is NOT clamped, so `isa_endpoint (-500)` differs
from `isa_endpoint 0` (their temperatures are 291.4 K and 288.15 K). -/
theorem C2_counterexample :
    (MainISA.isa_endpoint (-500)).T = 291.4 ∧
      (MainISA.isa_endpoint 0).T = 288.15 ∧
        MainISA.isa_endpoint (-500) ≠ MainISA.isa_endpoint 0 := by
  have hm : (MainISA.isa_endpoint (-500)).T = 291.4 := by
    rw [isa_endpoint_T]; norm_num
  have h0 : (MainISA.isa_endpoint 0).T = 288.15 := by
    rw [isa_endpoint_T]; norm_num
  refine ⟨hm, h0, fun hEq => ?_⟩
  have := congrArg ISA.AtmoState.T hEq
  rw [hm, h0] at this
  norm_num at this

/-- C2 amended: `isa_tropo` evaluates the ISA formulas at
`clamp(h, 0, 11000)` for every altitude, so `isa_tropo (-500) =
isa_tropo 0` and `isa_tropo 20000 = isa_tropo 11000`, and every caller of
`isa_tropo` (the Mach and lift/drag paths) sees clamped evaluation; but
the separate `/api/isa` endpoint of `app/main.py` reimplements the
formulas with no clamp, and on that path `atmosphere 20000 ≠
atmosphere 11000`. -/
theorem C2_clamping_amended :
    (∀ h : ℝ, ISA.isa_tropo h = ISA.isa_tropo (max 0 (min 11000 h))) ∧
      ISA.isa_tropo (-500) = ISA.isa_tropo 0 ∧
        ISA.isa_tropo 20000 = ISA.isa_tropo 11000 ∧
          MainISA.isa_endpoint 20000 ≠ MainISA.isa_endpoint 11000 := by
  refine ⟨fun h => ?_, isa_tropo_congr clamp_neg500, isa_tropo_congr clamp_20000,
    fun hEq => ?_⟩
  · refine isa_tropo_congr ?_
    obtain ⟨h0, h1⟩ := clamp_mem h
    rw [clamp_id h0 h1]
  · have := congrArg ISA.AtmoState.T hEq
    rw [isa_endpoint_T, isa_endpoint_T] at this
    norm_num at this

/-- Witness for C2 applying the universal clamping part at h = 42. -/
theorem C2_clamping_amended_witness :
    ISA.isa_tropo 42 = ISA.isa_tropo (max 0 (min 11000 42)) :=
  C2_clamping_amended.1 42

/-! ## Flow-regime classification (C6) -/

theorem classify_incompressible {m : ℝ} (h : m < 0.3) :
    Mach.classify m = "Incompressible" := by
  unfold Mach.classify
  rw [if_pos h]

theorem classify_subsonic {m : ℝ} (h1 : 0.3 ≤ m) (h2 : m < 0.8) :
    Mach.classify m = "Subsonic" := by
  unfold Mach.classify
  rw [if_neg (not_lt.mpr h1), if_pos h2]

theorem classify_transonic {m : ℝ} (h1 : 0.8 ≤ m) (h2 : m < 1.2) :
    Mach.classify m = "Transonic" := by
  unfold Mach.classify
  rw [if_neg (not_lt.mpr (le_trans (by norm_num) h1)),
    if_neg (not_lt.mpr h1), if_pos h2]

theorem classify_supersonic {m : ℝ} (h1 : 1.2 ≤ m) (h2 : m < 5.0) :
    Mach.classify m = "Supersonic" := by
  unfold Mach.classify
  rw [if_neg (not_lt.mpr (le_trans (by norm_num) h1)),
    if_neg (not_lt.mpr (le_trans (by norm_num) h1)),
    if_neg (not_lt.mpr h1), if_pos h2]

theorem classify_hypersonic {m : ℝ} (h1 : 5.0 ≤ m) :
    Mach.classify m = "Hypersonic" := by
  unfold Mach.classify
  rw [if_neg (not_lt.mpr (le_trans (by norm_num) h1)),
    if_neg (not_lt.mpr (le_trans (by norm_num) h1)),
    if_neg (not_lt.mpr (le_trans (by norm_num) h1)),
    if_neg (not_lt.mpr h1)]

/-- C6: the flow-regime bands are half-open with inclusive lower bounds,
and in particular mach = 0.3 gives "Subsonic", 0.8 gives "Transonic",
1.2 gives "Supersonic" and 5.0 gives "Hypersonic". -/
theorem C6_regime_bands (m : ℝ) :
    (m < 0.3 → Mach.classify m = "Incompressible") ∧
      (0.3 ≤ m → m < 0.8 → Mach.classify m = "Subsonic") ∧
        (0.8 ≤ m → m < 1.2 → Mach.classify m = "Transonic") ∧
          (1.2 ≤ m → m < 5.0 → Mach.classify m = "Supersonic") ∧
            (5.0 ≤ m → Mach.classify m = "Hypersonic") ∧
              Mach.classify 0.3 = "Subsonic" ∧
                Mach.classify 0.8 = "Transonic" ∧
                  Mach.classify 1.2 = "Supersonic" ∧
                    Mach.classify 5.0 = "Hypersonic" :=
  ⟨classify_incompressible, classify_subsonic, classify_transonic,
    classify_supersonic, classify_hypersonic,
    classify_subsonic le_rfl (by norm_num),
    classify_transonic le_rfl (by norm_num),
    classify_supersonic le_rfl (by norm_num),
    classify_hypersonic le_rfl⟩

/-- Witness for C6 at m = 2 (Supersonic band). -/
theorem C6_regime_bands_witness : Mach.classify 2 = "Supersonic" :=
  (C6_regime_bands 2).2.2.2.1 (by norm_num) (by norm_num)

/-! ## The Mach example at 11000 m (C1) -/

theorem isa_tropo_11000_T : (ISA.isa_tropo 11000).T = 216.65 := by
  rw [isa_tropo_T, clamp_id (by norm_num) (by norm_num)]
  unfold ISA.T0 ISA.L
  norm_num

theorem isa_tropo_11000_a_sq :
    ISA.gamma * ISA.R * (ISA.isa_tropo 11000).T = 87066.0059997 := by
  rw [isa_tropo_11000_T]
  unfold ISA.gamma ISA.R
  norm_num

/-- The speed of sound at 11000 m lies strictly between 295.06 and
295.07 m/s (the spec's 295.07 is its rounding). -/
theorem isa_tropo_11000_a_bounds :
    295.06 < (ISA.isa_tropo 11000).a ∧ (ISA.isa_tropo 11000).a < 295.07 := by
  rw [isa_tropo_a, isa_tropo_11000_a_sq]
  constructor
  · exact (Real.lt_sqrt (by norm_num)).mpr (by norm_num)
  · exact (Real.sqrt_lt' (by norm_num)).mpr (by norm_num)

/-- Evaluation of `compute_mach 11000 300 "m/s"`: the guards pass and the
response carries mach = 300 / a(11000) and its classification. -/
theorem compute_mach_11000_300 :
    Mach.compute_mach 11000 300 .ms =
      .ok ⟨11000, 300, .ms, 300, 300 / (ISA.isa_tropo 11000).a,
        (ISA.isa_tropo 11000).a, (ISA.isa_tropo 11000).T,
        Mach.classify (300 / (ISA.isa_tropo 11000).a)⟩ := by
  unfold Mach.compute_mach
  rw [if_neg (by norm_num), if_neg (by norm_num),
    if_neg (not_le.mpr (isa_tropo_a_pos 11000))]
  rfl

/-- The Mach number at 11000 m and 300 m/s lies strictly between 1.0167
and 1.0168. -/
theorem mach_11000_300_bounds :
    1.0167 < 300 / (ISA.isa_tropo 11000).a ∧
      300 / (ISA.isa_tropo 11000).a < 1.0168 := by
  obtain ⟨hlo, hhi⟩ := isa_tropo_11000_a_bounds
  have hapos : (0 : ℝ) < (ISA.isa_tropo 11000).a := isa_tropo_a_pos 11000
  constructor
  · have h1 : (300 : ℝ) / 295.07 < 300 / (ISA.isa_tropo 11000).a :=
      div_lt_div_of_pos_left (by norm_num) hapos hhi
    have h2 : (1.0167 : ℝ) < 300 / 295.07 := by norm_num
    linarith
  · have h1 : (300 : ℝ) / (ISA.isa_tropo 11000).a < 300 / 295.06 :=
      div_lt_div_of_pos_left (by norm_num) (by norm_num) hlo
    have h2 : (300 : ℝ) / 295.06 < 1.0168 := by norm_num
    linarith

/-- C1 counterexample: at altitude 11000 m and speed 300 m/s the Mach
calculator returns flow regime "Transonic", not "Supersonic" (the Mach
number ≈ 1.0167 falls in the [0.8, 1.2) band). -/
theorem C1_counterexample :
    (Mach.compute_mach 11000 300 .ms).map (fun r => r.flow_regime) ≠
      Except.ok "Supersonic" := by
  obtain ⟨hlo, hhi⟩ := mach_11000_300_bounds
  rw [compute_mach_11000_300]
  have hreg : Mach.classify (300 / (ISA.isa_tropo 11000).a) = "Transonic" :=
    classify_transonic (by linarith) (by linarith)
  simp only [Except.map, hreg]
  intro hEq
  have := Except.ok.inj hEq
  simp at this

/-- C1 amended: at altitude 11000 m and speed 300 m/s, the computed mach
equals 300 divided by the ISA speed of sound at 11000 m, lies strictly
between 1.0167 and 1.0168 (the speed of sound between 295.06 and
295.07 m/s), and the returned flow regime is "Transonic". -/
theorem C1_mach_11000_amended :
    (Mach.compute_mach 11000 300 .ms).map (fun r => r.mach) =
        Except.ok (300 / (ISA.isa_tropo 11000).a) ∧
      (Mach.compute_mach 11000 300 .ms).map (fun r => r.flow_regime) =
          Except.ok "Transonic" ∧
        1.0167 < 300 / (ISA.isa_tropo 11000).a ∧
          300 / (ISA.isa_tropo 11000).a < 1.0168 ∧
            295.06 < (ISA.isa_tropo 11000).a ∧
              (ISA.isa_tropo 11000).a < 295.07 := by
  obtain ⟨hlo, hhi⟩ := mach_11000_300_bounds
  obtain ⟨halo, hahi⟩ := isa_tropo_11000_a_bounds
  rw [compute_mach_11000_300]
  have hreg : Mach.classify (300 / (ISA.isa_tropo 11000).a) = "Transonic" :=
    classify_transonic (by linarith) (by linarith)
  simp only [Except.map, hreg]
  exact ⟨trivial, trivial, hlo, hhi, halo, hahi⟩

/-! ## Lift/drag evaluation lemmas -/

theorem clamp_zero : max (0 : ℝ) (min 11000 0) = 0 := by
  rw [min_eq_right (by norm_num), max_self]

theorem compute_lift_drag_cdZero :
    LiftDrag.compute_lift_drag LiftDrag.cdZeroReq = .ok LiftDrag.cdZeroResp := by
  simp only [LiftDrag.compute_lift_drag, LiftDrag.cdZeroReq, LiftDrag.cdZeroResp,
    LiftDrag.to_meters, LiftDrag.to_m_s, LiftDrag.to_m2]
  rw [if_neg (lt_irrefl (0 : ℝ)), clamp_zero,
    if_neg (not_le.mpr (isa_tropo_rho_pos 0))]
  have hdrag : 0.5 * (ISA.isa_tropo 0).rho * 10 ^ 2 * 10 * 0 = (0 : ℝ) := by ring
  rw [hdrag, if_neg (lt_irrefl (0 : ℝ))]

theorem compute_lift_drag_negWeight :
    LiftDrag.compute_lift_drag LiftDrag.negWeightReq = .ok LiftDrag.negWeightResp := by
  simp only [LiftDrag.compute_lift_drag, LiftDrag.negWeightReq, LiftDrag.negWeightResp,
    LiftDrag.to_meters, LiftDrag.to_m_s, LiftDrag.to_m2, LiftDrag.to_newtons]
  rw [if_neg (lt_irrefl (0 : ℝ)), clamp_zero,
    if_neg (not_le.mpr (isa_tropo_rho_pos 0))]
  have hrho := isa_tropo_rho_pos 0
  have hpos : (0 : ℝ) < 0.5 * (ISA.isa_tropo 0).rho * 10 ^ 2 * 10 * 1 := by nlinarith
  rw [if_neg (by norm_num : ¬ (-5 : ℝ) > 0), if_pos hpos]

/-! ## The optional weight fields (C5) -/

/-- C5 counterexample: for a request supplying weight −5 N, the response
fills `weight_N = some (−5)` even though the converted weight is not
positive, while `load_factor` and `lift_excess_N` stay absent — so the
three optional fields are not all absent as the claim requires. -/
theorem C5_counterexample :
    (LiftDrag.compute_lift_drag LiftDrag.negWeightReq).map
        (fun r => r.weight_N) = .ok (some (-5)) ∧
      (LiftDrag.compute_lift_drag LiftDrag.negWeightReq).map
          (fun r => r.load_factor) = .ok none ∧
        (LiftDrag.compute_lift_drag LiftDrag.negWeightReq).map
            (fun r => r.lift_excess_N) = .ok none ∧
          some (-5 : ℝ) ≠ (none : Option ℝ) := by
  rw [compute_lift_drag_negWeight]
  exact ⟨rfl, rfl, rfl, by simp⟩

/-- C5 amended: `weight_N` is present iff both `weight_value` and
`weight_unit` were supplied, carrying the converted weight whatever its
sign; `load_factor` and `lift_excess_N` are present iff additionally the
converted weight is positive, in which case `load_factor = lift_N / weight_N`
and `lift_excess_N = lift_N − weight_N`. -/
theorem C5_optional_fields_amended (req : LiftDrag.LiftDragRequest)
    (r : LiftDrag.LiftDragResponse)
    (hok : LiftDrag.compute_lift_drag req = .ok r) :
    (r.weight_N = none ↔ req.weight_value = none ∨ req.weight_unit = none) ∧
      (∀ wv wu, req.weight_value = some wv → req.weight_unit = some wu →
        r.weight_N = some (LiftDrag.to_newtons wv wu)) ∧
      (∀ W, r.weight_N = some W → 0 < W →
        r.load_factor = some (r.lift_N / W) ∧
          r.lift_excess_N = some (r.lift_N - W)) ∧
      (∀ W, r.weight_N = some W → ¬ 0 < W →
        r.load_factor = none ∧ r.lift_excess_N = none) ∧
      (r.weight_N = none → r.load_factor = none ∧ r.lift_excess_N = none) := by
  simp only [LiftDrag.compute_lift_drag] at hok
  split at hok
  · exact absurd hok (by simp)
  split at hok
  · exact absurd hok (by simp)
  split at hok
  case _ wv wu hwv hwu =>
    split at hok <;> rw [Except.ok.injEq] at hok <;> subst hok
    case _ hW =>
      refine ⟨by simp [hwv, hwu], ?_, ?_, ?_, by simp⟩
      · intro wv' wu' h1 h2
        rw [hwv] at h1
        rw [hwu] at h2
        cases Option.some.inj h1
        cases Option.some.inj h2
        rfl
      · intro W hWeq hWpos
        cases Option.some.inj hWeq
        exact ⟨rfl, rfl⟩
      · intro W hWeq hWneg
        cases Option.some.inj hWeq
        exact absurd hW hWneg
    case _ hW =>
      refine ⟨by simp [hwv, hwu], ?_, ?_, ?_, by simp⟩
      · intro wv' wu' h1 h2
        rw [hwv] at h1
        rw [hwu] at h2
        cases Option.some.inj h1
        cases Option.some.inj h2
        rfl
      · intro W hWeq hWpos
        cases Option.some.inj hWeq
        exact absurd hWpos hW
      · intro W hWeq hWneg
        exact ⟨rfl, rfl⟩
  case _ hno =>
    rw [Except.ok.injEq] at hok
    subst hok
    refine ⟨?_, ?_, by simp, by simp, fun _ => ⟨rfl, rfl⟩⟩
    · simp only [true_iff]
      rcases hwv : req.weight_value with _ | wv
      · exact Or.inl rfl
      · rcases hwu : req.weight_unit with _ | wu
        · exact Or.inr rfl
        · exact (hno wv wu hwv hwu).elim
    · intro wv wu h1 h2
      exact (hno wv wu h1 h2).elim

/-- Witness for C5: the amended theorem applied to the concrete negative
weight request. -/
theorem C5_optional_fields_amended_witness :
    LiftDrag.negWeightResp.load_factor = none ∧
      LiftDrag.negWeightResp.lift_excess_N = none :=
  (C5_optional_fields_amended LiftDrag.negWeightReq LiftDrag.negWeightResp
    compute_lift_drag_negWeight).2.2.2.1 (-5) rfl (by norm_num)

/-! ## The guarded ld ratio (C9) -/

/-- C9: every successful lift/drag response satisfies
`ld_ratio = lift_N / drag_N` when `drag_N > 0` and `ld_ratio = 0`
otherwise; in particular the cd = 0 request produces drag 0 and
`ld_ratio = 0` with no error. -/
theorem C9_ld_ratio_fallback :
    (∀ req r, LiftDrag.compute_lift_drag req = .ok r →
      r.ld_ratio = if 0 < r.drag_N then r.lift_N / r.drag_N else 0) ∧
      (LiftDrag.compute_lift_drag LiftDrag.cdZeroReq).map
          (fun r => r.ld_ratio) = .ok 0 ∧
        (LiftDrag.compute_lift_drag LiftDrag.cdZeroReq).map
            (fun r => r.drag_N) = .ok 0 := by
  refine ⟨?_, ?_, ?_⟩
  · intro req r hok
    simp only [LiftDrag.compute_lift_drag] at hok
    split at hok
    · exact absurd hok (by simp)
    split at hok
    · exact absurd hok (by simp)
    split at hok
    · split at hok <;> rw [Except.ok.injEq] at hok <;> subst hok <;> rfl
    · rw [Except.ok.injEq] at hok
      subst hok
      rfl
  · rw [compute_lift_drag_cdZero]
    rfl
  · rw [compute_lift_drag_cdZero]
    rfl

/-- Witness for C9: the general part applied to the concrete cd = 0
request and its computed response. -/
theorem C9_ld_ratio_fallback_witness :
    LiftDrag.cdZeroResp.ld_ratio =
      if 0 < LiftDrag.cdZeroResp.drag_N then
        LiftDrag.cdZeroResp.lift_N / LiftDrag.cdZeroResp.drag_N
      else 0 :=
  C9_ld_ratio_fallback.1 LiftDrag.cdZeroReq LiftDrag.cdZeroResp
    compute_lift_drag_cdZero

/-! ## Fuel-and-range weight algebra (C3, C4, C10) -/

/-- The final mass cancels the fuel term: `Wf = W_empty + pax * pax_wt`,
independent of `W_fuel`. -/
theorem Wf_eq (req : FuelRange.FuelRangeRequest) :
    FuelRange.Wf req = req.W_empty_kg + (req.pax : ℝ) * req.pax_wt_kg := by
  unfold FuelRange.Wf FuelRange.Wi FuelRange.W_pax
  ring

theorem Wi_sub_Wf (req : FuelRange.FuelRangeRequest) :
    FuelRange.Wi req - FuelRange.Wf req = req.W_fuel_kg := by
  unfold FuelRange.Wf
  ring

/-- Under field validation and a non-negative passenger count the weight
guard passes. -/
theorem weight_guard_pos (req : FuelRange.FuelRangeRequest)
    (hv : FuelRange.requestValid req) (hpax : 0 ≤ req.pax) :
    0 < FuelRange.Wf req ∧ FuelRange.Wf req < FuelRange.Wi req := by
  obtain ⟨hV, hpw, hWe, hWfu, hc, hLD, hS, hb⟩ := hv
  have hpaxR : (0 : ℝ) ≤ (req.pax : ℝ) := Int.cast_nonneg.mpr hpax
  have h1 : 0 < FuelRange.Wf req := by
    rw [Wf_eq]
    nlinarith
  refine ⟨h1, ?_⟩
  have := Wi_sub_Wf req
  linarith

/-- Once the weight guard passes, the estimator can never return the
weight-combination rejection: every later outcome is a different
constructor. -/
theorem estimate_ne_invalidWeight (req : FuelRange.FuelRangeRequest)
    (h : ¬(FuelRange.Wf req ≤ 0 ∨ FuelRange.Wi req ≤ FuelRange.Wf req)) :
    FuelRange.estimate_fuel_and_range req ≠
      .error FuelRange.FuelRangeErr.invalidWeight := by
  simp only [FuelRange.estimate_fuel_and_range]
  rw [if_neg h]
  split_ifs <;> simp

/-- C4: for every request, `Wf = W_empty + pax * pax_wt` independently of
the fuel weight; hence under field validation with a non-negative
passenger count, `Wf > 0` and `Wi > Wf` hold and the weight-combination
rejection is unreachable. -/
theorem C4_Wf_independent_of_fuel (req : FuelRange.FuelRangeRequest)
    (hv : FuelRange.requestValid req) (hpax : 0 ≤ req.pax) :
    FuelRange.Wf req = req.W_empty_kg + (req.pax : ℝ) * req.pax_wt_kg ∧
      0 < FuelRange.Wf req ∧ FuelRange.Wf req < FuelRange.Wi req ∧
        FuelRange.estimate_fuel_and_range req ≠
          .error FuelRange.FuelRangeErr.invalidWeight := by
  obtain ⟨h1, h2⟩ := weight_guard_pos req hv hpax
  refine ⟨Wf_eq req, h1, h2, estimate_ne_invalidWeight req ?_⟩
  push_neg
  exact ⟨h1, h2⟩

/-- Witness for C4 at the standard request. -/
theorem C4_Wf_independent_of_fuel_witness :
    FuelRange.Wf FuelRange.stdReq =
        FuelRange.stdReq.W_empty_kg +
          (FuelRange.stdReq.pax : ℝ) * FuelRange.stdReq.pax_wt_kg ∧
      0 < FuelRange.Wf FuelRange.stdReq ∧
        FuelRange.Wf FuelRange.stdReq < FuelRange.Wi FuelRange.stdReq ∧
          FuelRange.estimate_fuel_and_range FuelRange.stdReq ≠
            .error FuelRange.FuelRangeErr.invalidWeight :=
  C4_Wf_independent_of_fuel FuelRange.stdReq
    (by norm_num [FuelRange.requestValid, FuelRange.stdReq])
    (by norm_num [FuelRange.stdReq])

/-- C3 counterexample: a field-valid request whose fuel mass 10⁹ kg
dwarfs the 1000 kg of empty mass still computes `Wf = 1000 > 0` and is
NOT rejected with the weight-combination error — no fuel weight can drive
`Wf ≤ 0`. -/
theorem C3_counterexample :
    FuelRange.requestValid FuelRange.bigFuelReq ∧
      FuelRange.bigFuelReq.W_fuel_kg = 1000000000 ∧
        FuelRange.Wf FuelRange.bigFuelReq = 1000 ∧
          FuelRange.estimate_fuel_and_range FuelRange.bigFuelReq ≠
            .error FuelRange.FuelRangeErr.invalidWeight := by
  have hWf : FuelRange.Wf FuelRange.bigFuelReq = 1000 := by
    rw [Wf_eq]
    norm_num [FuelRange.bigFuelReq]
  have hWi : FuelRange.Wi FuelRange.bigFuelReq = 1000001000 := by
    unfold FuelRange.Wi FuelRange.W_pax
    norm_num [FuelRange.bigFuelReq]
  refine ⟨by norm_num [FuelRange.requestValid, FuelRange.bigFuelReq], rfl, hWf,
    estimate_ne_invalidWeight _ ?_⟩
  rw [hWf, hWi]
  norm_num

/-- The weight-combination rejection fires iff the line-76 guard
condition `Wf <= 0 or Wi <= Wf` holds: every later outcome of the
estimator is a different constructor. -/
theorem estimate_invalidWeight_iff (req : FuelRange.FuelRangeRequest) :
    FuelRange.estimate_fuel_and_range req =
        .error FuelRange.FuelRangeErr.invalidWeight ↔
      (FuelRange.Wf req ≤ 0 ∨ FuelRange.Wi req ≤ FuelRange.Wf req) := by
  constructor
  · intro hfire
    by_contra hc
    exact estimate_ne_invalidWeight req hc hfire
  · intro h
    simp only [FuelRange.estimate_fuel_and_range]
    rw [if_pos h]

/-- On a field-valid request a fired weight-combination rejection forces
the fuel-independent combination `W_empty + pax * pax_wt` to be
non-positive: the `Wi <= Wf` disjunct is impossible since it means
`W_fuel <= 0`. -/
theorem invalidWeight_combination_nonpos (req : FuelRange.FuelRangeRequest)
    (hv : FuelRange.requestValid req)
    (hfire : FuelRange.estimate_fuel_and_range req =
      .error FuelRange.FuelRangeErr.invalidWeight) :
    req.W_empty_kg + (req.pax : ℝ) * req.pax_wt_kg ≤ 0 := by
  obtain ⟨hV, hpw, hWe, hWfu, hc, hLD, hS, hb⟩ := hv
  rcases (estimate_invalidWeight_iff req).mp hfire with h | h
  · rw [Wf_eq] at h
    exact h
  · exfalso
    have := Wi_sub_Wf req
    linarith

/-- C3 amended: every returned estimate satisfies `Wf > 0` and
`Wi > Wf`; but `Wf = W_empty + pax * pax_wt` is independent of the fuel
weight, and for every request passing field validation the
weight-combination rejection fires exactly when the fuel-independent
quantity `W_empty + pax * pax_wt` is non-positive, which forces a
negative passenger count — never an excessive fuel weight. -/
theorem C3_weights_amended :
    (∀ req r, FuelRange.estimate_fuel_and_range req = .ok r →
      0 < r.Wf_kg ∧ r.Wf_kg < r.Wi_kg) ∧
      (∀ req : FuelRange.FuelRangeRequest,
        FuelRange.Wf req = req.W_empty_kg + (req.pax : ℝ) * req.pax_wt_kg) ∧
      (∀ req : FuelRange.FuelRangeRequest, FuelRange.requestValid req →
        (FuelRange.estimate_fuel_and_range req =
            .error FuelRange.FuelRangeErr.invalidWeight ↔
          req.W_empty_kg + (req.pax : ℝ) * req.pax_wt_kg ≤ 0)) ∧
      (∀ req : FuelRange.FuelRangeRequest, FuelRange.requestValid req →
        FuelRange.estimate_fuel_and_range req =
            .error FuelRange.FuelRangeErr.invalidWeight →
          req.pax < 0) := by
  refine ⟨?_, Wf_eq, ?_, ?_⟩
  · intro req r hok
    simp only [FuelRange.estimate_fuel_and_range] at hok
    split at hok
    · exact absurd hok (by simp)
    case _ hguard =>
      push_neg at hguard
      split at hok
      · exact absurd hok (by simp)
      split at hok
      · exact absurd hok (by simp)
      split at hok
      · exact absurd hok (by simp)
      split at hok
      · exact absurd hok (by simp)
      split at hok
      · exact absurd hok (by simp)
      split at hok
      · exact absurd hok (by simp)
      split at hok
      · exact absurd hok (by simp)
      rw [Except.ok.injEq] at hok
      subst hok
      exact ⟨hguard.1, hguard.2⟩
  · intro req hv
    refine ⟨invalidWeight_combination_nonpos req hv, fun h => ?_⟩
    exact (estimate_invalidWeight_iff req).mpr (Or.inl (by rw [Wf_eq]; exact h))
  · intro req hv hfire
    have hcomb := invalidWeight_combination_nonpos req hv hfire
    obtain ⟨hV, hpw, hWe, hWfu, hc, hLD, hS, hb⟩ := hv
    have hpaxR : (req.pax : ℝ) < 0 := by nlinarith
    exact_mod_cast hpaxR

/-- Witness for C3: on the concrete field-valid negative-passenger
request the rejection fires (via the amended equivalence) and the
passenger count is indeed negative (via the necessity part). -/
theorem C3_weights_amended_witness :
    FuelRange.estimate_fuel_and_range FuelRange.negPaxReq =
        .error FuelRange.FuelRangeErr.invalidWeight ∧
      FuelRange.negPaxReq.pax < 0 := by
  have hv : FuelRange.requestValid FuelRange.negPaxReq := by
    norm_num [FuelRange.requestValid, FuelRange.negPaxReq]
  have hfire := (C3_weights_amended.2.2.1 FuelRange.negPaxReq hv).mpr
    (by norm_num [FuelRange.negPaxReq])
  exact ⟨hfire, C3_weights_amended.2.2.2 FuelRange.negPaxReq hv hfire⟩

/-- C10: Oswald efficiency is not validated; any field-valid request with
a non-negative passenger count and e = 0 reaches
`k = 1 / (pi * e * AR)` and raises an uncaught division by zero, not an
InvalidInput rejection. -/
theorem C10_oswald_zero_division (req : FuelRange.FuelRangeRequest)
    (hv : FuelRange.requestValid req) (hpax : 0 ≤ req.pax)
    (he : req.e = 0) :
    FuelRange.estimate_fuel_and_range req =
      .error FuelRange.FuelRangeErr.zeroDivision := by
  obtain ⟨hV, hpw, hWe, hWfu, hc, hLD, hS, hb⟩ := hv
  obtain ⟨hWfpos, hWfWi⟩ :=
    weight_guard_pos req ⟨hV, hpw, hWe, hWfu, hc, hLD, hS, hb⟩ hpax
  have hguard : ¬(FuelRange.Wf req ≤ 0 ∨
      FuelRange.Wi req ≤ FuelRange.Wf req) := by
    push_neg
    exact ⟨hWfpos, hWfWi⟩
  have hq : (0 : ℝ) < 0.5 * 1.225 * req.V_ms ^ 2 := by
    have := pow_pos hV 2
    nlinarith
  simp only [FuelRange.estimate_fuel_and_range]
  rw [if_neg hguard,
    if_neg (div_ne_zero (ne_of_gt hc) (by norm_num)),
    if_neg (ne_of_gt hWfpos),
    if_neg (ne_of_gt hc),
    if_neg (ne_of_gt (mul_pos hq hS)),
    if_neg (ne_of_gt hS),
    if_pos (by rw [he, mul_zero, zero_mul])]

/-- Witness for C10 at the concrete e = 0 request. -/
theorem C10_oswald_zero_division_witness :
    FuelRange.estimate_fuel_and_range FuelRange.eZeroReq =
      .error FuelRange.FuelRangeErr.zeroDivision :=
  C10_oswald_zero_division FuelRange.eZeroReq
    (by norm_num [FuelRange.requestValid, FuelRange.eZeroReq])
    (by norm_num [FuelRange.eZeroReq])
    (by norm_num [FuelRange.eZeroReq])
